import Mathlib

/-!
Shallow embedding of `src/logger.py` (repository birdwatch/MyLogger).

The file embeds the two components of the repository:

* `MyLogger.format` — the body of `MyFormatter.format` (lines 31–68),
  together with the class constants `LEVEL_WIDTH`, the ANSI color codes
  (lines 16–24) and the date format `'%Y-%m-%d %H:%M:%S'` set in
  `MyFormatter.__init__` (line 29).
* `MyLogger.setup_logger` — the body of `setup_logger` (lines 70–97),
  over an explicit process state (existing directories, directories whose
  creation is denied, and the logging registry's entry for the reserved
  name "AppLogger").

Python strings are Lean `String`s; `str(n)` for a natural number is
`natToStr` (decimal, no padding, via the same repeated div/mod 10);
`strftime` two-digit fields (`%m %d %H %M %S`) are `pad2` (zero-padded to
width two); `record.getMessage()` of the logging facility renders the
record's message value via its string conversion, embedded as `pyStr`
over the value type `PyValue`.
-/

namespace MyLogger

/-! ### Decimal rendering of numbers (Python `str(int)`, `strftime` padding) -/

/-- The character of the decimal digit `n % 10` (code 48 + digit). -/
def digitChar (n : Nat) : Char := Char.ofNat (48 + n % 10)

/-- Fuel-driven digit list of `n`, most significant first; `[]` for `0`.
The fuel is only there to make the recursion structural. -/
def natToStrAux : Nat → Nat → List Char
  | 0, _ => []
  | fuel + 1, n =>
    if n = 0 then [] else natToStrAux fuel (n / 10) ++ [digitChar (n % 10)]

/-- The decimal digit characters of `n`, most significant first; `[]` for `0`. -/
def natDigits (n : Nat) : List Char := natToStrAux n n

/-- Python `str(n)` for a natural number `n`: decimal, no padding. -/
def natToStr (n : Nat) : String := if n = 0 then "0" else String.mk (natDigits n)

/-- Python `str(i)` for an integer: a minus sign in front of the digits when
negative. -/
def intToStr (i : Int) : String :=
  if i < 0 then "-" ++ natToStr i.natAbs else natToStr i.natAbs

/-- A `strftime` two-digit field (`%m`, `%d`, `%H`, `%M`, `%S`):
zero-padded to width two. -/
def pad2 (n : Nat) : String := if n < 10 then "0" ++ natToStr n else natToStr n

/-! ### The record's inputs to `MyFormatter.format` -/

/-- A broken-down local time, as `time.localtime(record.created)` yields it:
the fields that the date format `'%Y-%m-%d %H:%M:%S'` reads. -/
structure Tm where
  year : Nat
  mon : Nat
  mday : Nat
  hour : Nat
  minute : Nat
  sec : Nat
deriving DecidableEq

/-- A Python value carried as `record.msg`. Modelled from the spec: the
logging facility's `record.getMessage()` is not part of `src/`; the spec
says a message that is not a plain string "is rendered via the record's own
string-conversion", so the message is a value of one of these shapes and
`pyStr` is that conversion. -/
inductive PyValue where
  | str : String → PyValue
  | int : Int → PyValue
  | bool : Bool → PyValue
  | none : PyValue
deriving DecidableEq

/-- Modelled from the spec: the string conversion `record.getMessage()`
applies to the message value (Python `str()` on each shape). -/
def pyStr : PyValue → String
  | PyValue.str s => s
  | PyValue.int i => intToStr i
  | PyValue.bool b => if b then "True" else "False"
  | PyValue.none => "None"

/-- The fields of a log record that `MyFormatter.format` reads:
`record.created` (as broken-down local time), `record.levelno`,
`record.levelname`, `record.pathname`, `record.lineno`, `record.msg`. -/
structure LogRecord where
  created : Tm
  levelno : Nat
  levelname : String
  pathname : String
  lineno : Nat
  msg : PyValue
deriving DecidableEq

/-! ### `MyFormatter` (src/logger.py lines 5–68) -/

/-- Width for the Level column (line 16). -/
def LEVEL_WIDTH : Nat := 8

/-- ANSI escape code for INFO/DEBUG (line 19). -/
def GREY : String := "\x1b[38;20m"

/-- ANSI escape code for the date field (line 20). -/
def GREEN : String := "\x1b[32;20m"

/-- ANSI escape code for WARNING (line 21). -/
def YELLOW : String := "\x1b[33;20m"

/-- ANSI escape code for ERROR and above (line 22). -/
def RED : String := "\x1b[31;20m"

/-- ANSI escape code for the location field (line 23). -/
def BLUE : String := "\x1b[34;20m"

/-- ANSI reset code (line 24). -/
def RESET : String := "\x1b[0m"

/-- The numeric levels of the logging facility used by the source. -/
def DEBUG : Nat := 10

def INFO : Nat := 20

def WARNING : Nat := 30

def ERROR : Nat := 40

def CRITICAL : Nat := 50

/-- `self.formatTime(record, self.datefmt)` with
`self.datefmt = '%Y-%m-%d %H:%M:%S'` (lines 29 and 33): `%Y` is the year's
decimal digits, the other five fields are zero-padded to two digits. -/
def formatTime (t : Tm) : String :=
  natToStr t.year ++ "-" ++ pad2 t.mon ++ "-" ++ pad2 t.mday ++ " "
    ++ pad2 t.hour ++ ":" ++ pad2 t.minute ++ ":" ++ pad2 t.sec

/-- Python `f"{s:<{w}}"`: left-justified, right-padded with spaces to width
`w`, never truncated (line 38). -/
def ljust (s : String) (w : Nat) : String :=
  s ++ String.mk (List.replicate (w - s.length) ' ')

/-- `f"{record.pathname}:{record.lineno}"` (line 42). -/
def locStr (r : LogRecord) : String :=
  r.pathname ++ ":" ++ natToStr r.lineno

/-- The message/level color chosen at lines 47–52: YELLOW for
`levelno == WARNING`, RED for `levelno >= ERROR`, GREY otherwise. -/
def mainColor (levelno : Nat) : String :=
  if levelno = WARNING then YELLOW else if ERROR ≤ levelno then RED else GREY

/-- `MyFormatter.format` (lines 31–68), with `use_color` the flag set at
construction (line 28). -/
def format (use_color : Bool) (r : LogRecord) : String :=
  let timestamp := formatTime r.created
  let level_str := ljust r.levelname LEVEL_WIDTH
  let loc_str := locStr r
  if use_color then
    (GREEN ++ timestamp ++ RESET) ++ " | "
      ++ (mainColor r.levelno ++ level_str ++ RESET) ++ " | "
      ++ (BLUE ++ loc_str ++ RESET) ++ " | "
      ++ (mainColor r.levelno ++ pyStr r.msg ++ RESET)
  else
    timestamp ++ " | " ++ level_str ++ " | " ++ loc_str ++ " | " ++ pyStr r.msg

/-! ### `setup_logger` (src/logger.py lines 70–97) -/

/-- The stream a `logging.StreamHandler` writes to. -/
inductive StreamDest where
  | stdout : StreamDest
  | stderr : StreamDest
deriving DecidableEq

/-- A handler registered on the logger: a `StreamHandler` (destination,
level, formatter's color flag) or a `FileHandler` (path, mode, encoding,
level, formatter's color flag). `logging.FileHandler`'s default mode is
`"a"` (append). -/
inductive Handler where
  | stream : StreamDest → Nat → Bool → Handler
  | file : String → String → String → Nat → Bool → Handler
deriving DecidableEq

/-- The threshold a handler filters records with (`setLevel` on it). -/
def Handler.levelOf : Handler → Nat
  | Handler.stream _ lvl _ => lvl
  | Handler.file _ _ _ lvl _ => lvl

/-- The named logger: its own threshold and its registered handlers. -/
structure Logger where
  level : Nat
  handlers : List Handler
deriving DecidableEq

/-- The process state `setup_logger` reads and writes: the directories that
exist, the directories whose creation the OS denies (permission), and the
logging registry's entry for the reserved name "AppLogger". -/
structure ProcState where
  dirs : List String
  denied : List String
  appLogger : Option Logger
deriving DecidableEq

/-- `os.makedirs(p, exist_ok=True)` as called on a path that does not
exist: raises `PermissionError` when denied, otherwise records the
directory as existing. -/
def makedirs (st : ProcState) (p : String) : Except String ProcState :=
  if p ∈ st.denied then Except.error ("PermissionError: " ++ p)
  else Except.ok ⟨p :: st.dirs, st.denied, st.appLogger⟩

/-- The console handler registered at lines 86–89: standard output, level
INFO, `MyFormatter(use_color=True)`. -/
def streamSink : Handler := Handler.stream StreamDest.stdout INFO true

/-- The file handler registered at lines 92–95: path
`os.path.join(log_folder, "log.txt")`, append mode, utf-8, level DEBUG,
`MyFormatter(use_color=False)`. -/
def fileSink (log_folder : String) : Handler :=
  Handler.file (log_folder ++ "/" ++ "log.txt") "a" "utf-8" DEBUG false

/-- `setup_logger(log_folder)` (lines 70–97): create the directory when it
does not exist (line 74–75, errors propagate), compute the log file path
(line 77), fetch the registry's "AppLogger" (line 79, fresh with no
handlers when absent), set its level to DEBUG (line 80), return it as is
when it already has handlers (lines 82–83), otherwise register the console
and file handlers (lines 86–95) and return it. -/
def setup_logger (st : ProcState) (log_folder : String) :
    Except String (ProcState × Logger) :=
  match (if log_folder ∈ st.dirs then Except.ok st else makedirs st log_folder) with
  | Except.error e => Except.error e
  | Except.ok st1 =>
    let lg0 : Logger := match st1.appLogger with
      | some l => l
      | Option.none => ⟨0, []⟩
    let lg1 : Logger := ⟨DEBUG, lg0.handlers⟩
    if lg1.handlers.isEmpty then
      let lg2 : Logger := ⟨lg1.level, lg1.handlers ++ [streamSink]⟩
      let lg3 : Logger := ⟨lg2.level, lg2.handlers ++ [fileSink log_folder]⟩
      Except.ok (⟨st1.dirs, st1.denied, some lg3⟩, lg3)
    else
      Except.ok (⟨st1.dirs, st1.denied, some lg1⟩, lg1)

/-- The handlers that emit a line for one record at level `levelno`: the
logging facility dispatches the record when it passes the logger's own
threshold, and each handler whose threshold it passes writes one line. -/
def passingHandlers (lg : Logger) (levelno : Nat) : List Handler :=
  if lg.level ≤ levelno then
    lg.handlers.filter (fun h => Handler.levelOf h ≤ levelno)
  else []

end MyLogger

namespace MyLogger

theorem natToStrAux_zero : ∀ f : Nat, natToStrAux f 0 = []
  | 0 => rfl
  | _ + 1 => rfl

theorem natToStrAux_eq : ∀ f g n : Nat, n ≤ f → n ≤ g →
    natToStrAux f n = natToStrAux g n := by
  intro f
  induction f with
  | zero =>
    intro g n hf _
    have hn : n = 0 := Nat.le_zero.mp hf
    subst hn
    rw [natToStrAux_zero, natToStrAux_zero]
  | succ f ih =>
    intro g n hf hg
    by_cases hn : n = 0
    · subst hn; rw [natToStrAux_zero, natToStrAux_zero]
    · obtain ⟨g', rfl⟩ : ∃ g', g = g' + 1 := by
        cases g with
        | zero => exact absurd (Nat.le_zero.mp hg) hn
        | succ g' => exact ⟨g', rfl⟩
      have hdiv : n / 10 < n := Nat.div_lt_self (Nat.pos_of_ne_zero hn) (by omega)
      simp only [natToStrAux, hn, if_false]
      rw [ih g' (n / 10) (by omega) (by omega)]

theorem natDigits_def (n : Nat) (h : n ≠ 0) :
    natDigits n = natDigits (n / 10) ++ [digitChar (n % 10)] := by
  obtain ⟨m, rfl⟩ : ∃ m, n = m + 1 := ⟨n - 1, by omega⟩
  have hdiv : (m + 1) / 10 ≤ m := by
    have := Nat.div_lt_self (Nat.succ_pos m) (show 1 < 10 by omega)
    omega
  show natToStrAux (m + 1) (m + 1) = _
  simp only [natToStrAux, h, if_false]
  rw [natToStrAux_eq m ((m + 1) / 10) ((m + 1) / 10) hdiv (Nat.le_refl _)]
  rfl

theorem natDigits_length : ∀ k n : Nat, 10 ^ k ≤ n → n < 10 ^ (k + 1) →
    (natDigits n).length = k + 1 := by
  intro k
  induction k with
  | zero =>
    intro n h1 h2
    have hn : n ≠ 0 := by simpa using Nat.one_le_iff_ne_zero.mp h1
    rw [natDigits_def n hn]
    have : n / 10 = 0 := Nat.div_eq_of_lt (by simpa using h2)
    rw [this]
    rfl
  | succ k ih =>
    intro n h1 h2
    have hpow : (0:Nat) < 10 ^ (k + 1) := Nat.pos_pow_of_pos _ (by omega)
    have hn : n ≠ 0 := by omega
    rw [natDigits_def n hn, List.length_append]
    have hlo : 10 ^ k ≤ n / 10 := by
      rw [Nat.le_div_iff_mul_le (by omega : 0 < 10)]
      calc 10 ^ k * 10 = 10 ^ (k + 1) := by ring
        _ ≤ n := h1
    have hhi : n / 10 < 10 ^ (k + 1) := by
      rw [Nat.div_lt_iff_lt_mul (by omega : 0 < 10)]
      calc n < 10 ^ (k + 1 + 1) := h2
        _ = 10 ^ (k + 1) * 10 := by ring
    rw [ih (n / 10) hlo hhi]
    rfl


theorem natToStr_length_one (n : Nat) (h : n < 10) : (natToStr n).length = 1 := by
  by_cases hn : n = 0
  · subst hn; rfl
  · rw [natToStr, if_neg hn, String.length_mk]
    exact natDigits_length 0 n (Nat.one_le_iff_ne_zero.mpr hn) (by simpa using h)

theorem natToStr_length_of_bounds (k n : Nat) (h1 : 10 ^ k ≤ n) (h2 : n < 10 ^ (k + 1)) :
    (natToStr n).length = k + 1 := by
  have hn : n ≠ 0 := by
    have : (0:Nat) < 10 ^ k := Nat.pos_pow_of_pos _ (by omega)
    omega
  rw [natToStr, if_neg hn, String.length_mk]
  exact natDigits_length k n h1 h2

theorem pad2_length (n : Nat) (h : n < 100) : (pad2 n).length = 2 := by
  rw [pad2]
  by_cases h10 : n < 10
  · rw [if_pos h10, String.length_append, natToStr_length_one n h10]
    rfl
  · rw [if_neg h10]
    exact natToStr_length_of_bounds 1 n (by omega) (by omega)

/-- Bounds making a broken-down time well formed enough that the rendered
timestamp is exactly 19 characters (`YYYY-MM-DD HH:MM:SS`): a four-digit
year and two-digit remaining fields. -/
def TmOk (t : Tm) : Prop :=
  1000 ≤ t.year ∧ t.year < 10000 ∧ t.mon < 100 ∧ t.mday < 100
    ∧ t.hour < 100 ∧ t.minute < 100 ∧ t.sec < 100

instance (t : Tm) : Decidable (TmOk t) :=
  inferInstanceAs (Decidable (_ ∧ _ ∧ _ ∧ _ ∧ _ ∧ _ ∧ _))

theorem formatTime_length (t : Tm) (h : TmOk t) : (formatTime t).length = 19 := by
  obtain ⟨h1, h2, h3, h4, h5, h6, h7⟩ := h
  rw [formatTime]
  simp only [String.length_append]
  rw [natToStr_length_of_bounds 3 t.year (by omega) (by omega),
    pad2_length _ h3, pad2_length _ h4, pad2_length _ h5,
    pad2_length _ h6, pad2_length _ h7]
  rfl

theorem ljust_length (s : String) (w : Nat) (h : s.length ≤ w) :
    (ljust s w).length = w := by
  simp only [ljust, String.length_append, String.length_mk, List.length_replicate]
  omega


/-- Everything of the plain (color-off) line that comes before the location
field: timestamp, separator, padded level, separator. Its length is the
character offset at which the location field begins. -/
def plainLead (r : LogRecord) : String :=
  formatTime r.created ++ " | " ++ ljust r.levelname LEVEL_WIDTH ++ " | "

theorem format_plain_decomp (r : LogRecord) :
    format false r = plainLead r ++ (locStr r ++ (" | " ++ pyStr r.msg)) := by
  simp [format, plainLead, String.append_assoc]

theorem plainLead_length (r : LogRecord) (ht : TmOk r.created)
    (hl : r.levelname.length ≤ 8) : (plainLead r).length = 33 := by
  rw [plainLead]
  simp only [String.length_append]
  rw [formatTime_length r.created ht, ljust_length r.levelname LEVEL_WIDTH hl]
  rfl

/-- Example records used to instantiate the hypotheses of the claims'
theorems at concrete inputs. -/
def recINFO : LogRecord :=
  ⟨⟨2026, 10, 12, 9, 30, 0⟩, INFO, "INFO", "app.py", 42,
    PyValue.str "Process started."⟩

def recWARN : LogRecord :=
  ⟨⟨2026, 10, 12, 9, 30, 1⟩, WARNING, "WARNING", "app.py", 57,
    PyValue.str "Configuration file not found."⟩

/-- C1: with color-mode disabled the level name is left-justified and
right-padded with spaces to exactly `LEVEL_WIDTH = 8` characters, so for any
two records with level names of at most 8 characters (and well-formed
timestamps) the location field begins at the same character offset (33) in
both formatted outputs; `CRITICAL` exactly fills the field with no
padding. -/
theorem levelColumn_fixed_offset (r1 r2 : LogRecord)
    (ht1 : TmOk r1.created) (ht2 : TmOk r2.created)
    (hl1 : r1.levelname.length ≤ 8) (hl2 : r2.levelname.length ≤ 8) :
    format false r1 = plainLead r1 ++ (locStr r1 ++ (" | " ++ pyStr r1.msg)) ∧
    format false r2 = plainLead r2 ++ (locStr r2 ++ (" | " ++ pyStr r2.msg)) ∧
    (plainLead r1).length = (plainLead r2).length ∧
    (plainLead r1).length = 33 ∧
    ljust "CRITICAL" LEVEL_WIDTH = "CRITICAL" := by
  refine ⟨format_plain_decomp r1, format_plain_decomp r2, ?_, ?_, by decide⟩
  · rw [plainLead_length r1 ht1 hl1, plainLead_length r2 ht2 hl2]
  · exact plainLead_length r1 ht1 hl1

theorem levelColumn_fixed_offset_witness :
    (plainLead recINFO).length = (plainLead recWARN).length ∧
    (plainLead recINFO).length = 33 :=
  ⟨(levelColumn_fixed_offset recINFO recWARN (by decide) (by decide)
      (by decide) (by decide)).2.2.1,
   (levelColumn_fixed_offset recINFO recWARN (by decide) (by decide)
      (by decide) (by decide)).2.2.2.1⟩


/-- Everything of the colored (color-on) line that comes before the
location text: colored timestamp, separator, colored padded level,
separator, and the location field's own color code. Its length is the
character offset at which the location text begins. -/
def colorLead (r : LogRecord) : String :=
  GREEN ++ formatTime r.created ++ RESET ++ " | "
    ++ mainColor r.levelno ++ ljust r.levelname LEVEL_WIDTH ++ RESET ++ " | "
    ++ BLUE

theorem format_color_decomp (r : LogRecord) :
    format true r =
      colorLead r ++ (locStr r ++ (RESET ++ (" | "
        ++ (mainColor r.levelno ++ (pyStr r.msg ++ RESET))))) := by
  simp [format, colorLead, String.append_assoc]

theorem mainColor_length (n : Nat) : (mainColor n).length = 8 := by
  rw [mainColor]
  split
  · rfl
  · split <;> rfl

theorem colorLead_length (r : LogRecord) (ht : TmOk r.created)
    (hl : r.levelname.length ≤ 8) : (colorLead r).length = 65 := by
  rw [colorLead]
  simp only [String.length_append]
  rw [formatTime_length r.created ht, ljust_length r.levelname LEVEL_WIDTH hl,
    mainColor_length r.levelno]
  rfl

/-- C10: with color-mode enabled, for any two records with level names of
at most 8 characters (and well-formed timestamps) the location text begins
at the same character offset (65) in both formatted outputs, because the
three severity color codes GREY, YELLOW and RED all have the same length
and the remaining escape-code wrapping is fixed. -/
theorem coloredColumn_fixed_offset (r1 r2 : LogRecord)
    (ht1 : TmOk r1.created) (ht2 : TmOk r2.created)
    (hl1 : r1.levelname.length ≤ 8) (hl2 : r2.levelname.length ≤ 8) :
    format true r1 =
      colorLead r1 ++ (locStr r1 ++ (RESET ++ (" | "
        ++ (mainColor r1.levelno ++ (pyStr r1.msg ++ RESET))))) ∧
    format true r2 =
      colorLead r2 ++ (locStr r2 ++ (RESET ++ (" | "
        ++ (mainColor r2.levelno ++ (pyStr r2.msg ++ RESET))))) ∧
    (colorLead r1).length = (colorLead r2).length ∧
    (colorLead r1).length = 65 ∧
    GREY.length = YELLOW.length ∧ YELLOW.length = RED.length := by
  refine ⟨format_color_decomp r1, format_color_decomp r2, ?_, ?_, by decide, by decide⟩
  · rw [colorLead_length r1 ht1 hl1, colorLead_length r2 ht2 hl2]
  · exact colorLead_length r1 ht1 hl1

theorem coloredColumn_fixed_offset_witness :
    (colorLead recINFO).length = (colorLead recWARN).length ∧
    (colorLead recINFO).length = 65 :=
  ⟨(coloredColumn_fixed_offset recINFO recWARN (by decide) (by decide)
      (by decide) (by decide)).2.2.1,
   (coloredColumn_fixed_offset recINFO recWARN (by decide) (by decide)
      (by decide) (by decide)).2.2.2.1⟩

/-- C2: with color-mode enabled the level and message fields are wrapped in
the severity color `mainColor` (YELLOW exactly for WARNING, RED for ERROR
and every higher level, GREY for DEBUG and INFO), the timestamp is always
wrapped in GREEN and the location always in BLUE, both constant across all
records. -/
theorem severity_color_mapping (r : LogRecord) (n : Nat) (hn : ERROR ≤ n) :
    format true r =
      (GREEN ++ formatTime r.created ++ RESET) ++ " | "
        ++ (mainColor r.levelno ++ ljust r.levelname LEVEL_WIDTH ++ RESET) ++ " | "
        ++ (BLUE ++ locStr r ++ RESET) ++ " | "
        ++ (mainColor r.levelno ++ pyStr r.msg ++ RESET) ∧
    mainColor WARNING = YELLOW ∧
    mainColor DEBUG = GREY ∧
    mainColor INFO = GREY ∧
    mainColor n = RED ∧
    (mainColor r.levelno = YELLOW ↔ r.levelno = WARNING) := by
  refine ⟨rfl, by decide, by decide, by decide, ?_, ?_⟩
  · rw [mainColor, if_neg (by unfold WARNING ERROR at *; omega), if_pos hn]
  · constructor
    · intro h
      by_contra hne
      rw [mainColor, if_neg hne] at h
      by_cases h40 : ERROR ≤ r.levelno
      · rw [if_pos h40] at h
        exact absurd h (by decide)
      · rw [if_neg h40] at h
        exact absurd h (by decide)
    · intro h
      rw [mainColor, if_pos h]

theorem severity_color_mapping_witness :
    mainColor CRITICAL = RED ∧
    (mainColor recWARN.levelno = YELLOW ↔ recWARN.levelno = WARNING) :=
  ⟨(severity_color_mapping recWARN CRITICAL (by decide)).2.2.2.2.1,
   (severity_color_mapping recWARN CRITICAL (by decide)).2.2.2.2.2⟩


/-- The ESC character (code 27) that starts every ANSI escape sequence. -/
def escChar : Char := Char.ofNat 27

/-- A string holds an ANSI escape sequence exactly when it holds the ESC
character. -/
def containsEsc (s : String) : Prop := escChar ∈ s.data

instance (s : String) : Decidable (containsEsc s) :=
  inferInstanceAs (Decidable (escChar ∈ s.data))

theorem containsEsc_append (a b : String) :
    containsEsc (a ++ b) ↔ containsEsc a ∨ containsEsc b := by
  unfold containsEsc
  rw [String.data_append]
  exact List.mem_append

theorem digitChar_ne_escChar (n : Nat) : digitChar n ≠ escChar := by
  have hd : n % 10 = 0 ∨ n % 10 = 1 ∨ n % 10 = 2 ∨ n % 10 = 3 ∨ n % 10 = 4
      ∨ n % 10 = 5 ∨ n % 10 = 6 ∨ n % 10 = 7 ∨ n % 10 = 8 ∨ n % 10 = 9 := by
    omega
  unfold digitChar
  rcases hd with h | h | h | h | h | h | h | h | h | h <;> rw [h] <;> decide

theorem escChar_not_mem_natDigits (n : Nat) : escChar ∉ natDigits n := by
  induction n using Nat.strong_induction_on with
  | _ n ih =>
    by_cases hn : n = 0
    · subst hn
      exact List.not_mem_nil escChar
    · rw [natDigits_def n hn]
      intro h
      rcases List.mem_append.mp h with h | h
      · exact ih (n / 10) (Nat.div_lt_self (Nat.pos_of_ne_zero hn) (by omega)) h
      · exact digitChar_ne_escChar (n % 10) (List.mem_singleton.mp h).symm

theorem not_containsEsc_natToStr (n : Nat) : ¬ containsEsc (natToStr n) := by
  rw [natToStr]
  by_cases hn : n = 0
  · rw [if_pos hn]; decide
  · rw [if_neg hn]
    exact escChar_not_mem_natDigits n

theorem not_containsEsc_pad2 (n : Nat) : ¬ containsEsc (pad2 n) := by
  rw [pad2]
  by_cases h10 : n < 10
  · rw [if_pos h10]
    rw [containsEsc_append]
    rintro (h | h)
    · exact absurd h (by decide)
    · exact not_containsEsc_natToStr n h
  · rw [if_neg h10]
    exact not_containsEsc_natToStr n

theorem not_containsEsc_formatTime (t : Tm) : ¬ containsEsc (formatTime t) := by
  unfold formatTime
  simp only [containsEsc_append, not_or]
  repeat' apply And.intro
  all_goals first
    | exact not_containsEsc_natToStr _
    | exact not_containsEsc_pad2 _
    | decide

theorem not_containsEsc_ljust (s : String) (w : Nat) (h : ¬ containsEsc s) :
    ¬ containsEsc (ljust s w) := by
  rw [ljust, containsEsc_append]
  rintro (hc | hc)
  · exact h hc
  · have := List.eq_of_mem_replicate (hc : escChar ∈ List.replicate (w - s.length) ' ')
    exact absurd this (by decide)

theorem not_containsEsc_locStr (r : LogRecord) (hp : ¬ containsEsc r.pathname) :
    ¬ containsEsc (locStr r) := by
  rw [locStr]
  simp only [containsEsc_append, not_or]
  exact ⟨⟨hp, by decide⟩, not_containsEsc_natToStr r.lineno⟩

/-- C3 counterexample: with color-mode disabled the formatter copies the
message verbatim, so a message that itself holds an ESC character makes the
output hold an ANSI escape sequence — the claim's "for any input message"
fails. -/
theorem plain_output_no_ansi_counterexample :
    containsEsc (format false
      ⟨⟨2024, 5, 6, 7, 8, 9⟩, INFO, "INFO", "app.py", 3,
        PyValue.str "\x1b[31mboom"⟩) := by decide

/-- C3 (amended): with color-mode disabled the formatter emits no ANSI
escape sequence of its own: whenever the record's level name, path and
rendered message hold no ESC character, the whole output holds none. -/
theorem plain_output_no_ansi (r : LogRecord)
    (hn : ¬ containsEsc r.levelname) (hp : ¬ containsEsc r.pathname)
    (hm : ¬ containsEsc (pyStr r.msg)) : ¬ containsEsc (format false r) := by
  rw [format_plain_decomp r]
  simp only [containsEsc_append, not_or]
  refine ⟨?_, not_containsEsc_locStr r hp, by decide, hm⟩
  rw [plainLead]
  simp only [containsEsc_append, not_or]
  exact ⟨⟨⟨not_containsEsc_formatTime r.created, by decide⟩,
    not_containsEsc_ljust r.levelname LEVEL_WIDTH hn⟩, by decide⟩

theorem plain_output_no_ansi_witness : ¬ containsEsc (format false recINFO) :=
  plain_output_no_ansi recINFO (by decide) (by decide) (by decide)


/-- The last character of a string, when there is one. -/
def lastChar (s : String) : Option Char := s.data.reverse.head?

theorem lastChar_append (a b : String) :
    lastChar (a ++ b) = (lastChar b).or (lastChar a) := by
  unfold lastChar
  rw [String.data_append, List.reverse_append]
  cases hb : b.data.reverse with
  | nil => simp
  | cons c l => simp

/-- C4: the formatter returns the four fields timestamp, level, location,
message joined by the literal separator " | " in that fixed order (in both
color modes), the location field is the path and line number joined by ":",
the timestamp follows the fixed date format, and the formatter appends no
trailing newline: when the rendered message does not end in a newline,
neither does the output. -/
theorem four_fields_joined (c : Bool) (r : LogRecord)
    (hm : lastChar (pyStr r.msg) ≠ some (Char.ofNat 10)) :
    format false r =
      formatTime r.created ++ " | " ++ ljust r.levelname LEVEL_WIDTH ++ " | "
        ++ locStr r ++ " | " ++ pyStr r.msg ∧
    format true r =
      (GREEN ++ formatTime r.created ++ RESET) ++ " | "
        ++ (mainColor r.levelno ++ ljust r.levelname LEVEL_WIDTH ++ RESET) ++ " | "
        ++ (BLUE ++ locStr r ++ RESET) ++ " | "
        ++ (mainColor r.levelno ++ pyStr r.msg ++ RESET) ∧
    locStr r = r.pathname ++ ":" ++ natToStr r.lineno ∧
    formatTime r.created =
      natToStr r.created.year ++ "-" ++ pad2 r.created.mon ++ "-"
        ++ pad2 r.created.mday ++ " " ++ pad2 r.created.hour ++ ":"
        ++ pad2 r.created.minute ++ ":" ++ pad2 r.created.sec ∧
    lastChar (format c r) ≠ some (Char.ofNat 10) := by
  refine ⟨rfl, rfl, rfl, rfl, ?_⟩
  cases c
  · rw [format_plain_decomp r]
    simp only [lastChar_append]
    rw [show lastChar " | " = some ' ' from rfl]
    cases hms : lastChar (pyStr r.msg) with
    | none =>
      simp only [Option.or]
      decide
    | some ch =>
      have hch : ch ≠ Char.ofNat 10 := fun hc => hm (by rw [hms, hc])
      simp only [Option.or]
      intro hc
      exact hch (Option.some.inj hc)
  · rw [format_color_decomp r]
    simp only [lastChar_append]
    rw [show lastChar RESET = some 'm' from rfl]
    simp only [Option.or]
    decide

theorem four_fields_joined_witness :
    lastChar (format false recINFO) ≠ some (Char.ofNat 10) :=
  (four_fields_joined false recINFO (by decide)).2.2.2.2


/-- C9: formatting is total — for every record, in either color mode, the
formatter returns a string, and the message value (a plain string or not)
is rendered through the string conversion `pyStr` (the embedding of
`record.getMessage()`); non-string values render via their own conversion
instead of failing. -/
theorem format_total (c : Bool) (r : LogRecord) :
    (∃ lead : String,
      format c r = lead ++ (pyStr r.msg ++ (if c then RESET else ""))) ∧
    pyStr (PyValue.int 42) = "42" ∧
    pyStr (PyValue.int (-3)) = "-3" ∧
    pyStr (PyValue.bool true) = "True" ∧
    pyStr PyValue.none = "None" := by
  refine ⟨?_, by decide, by decide, by decide, by decide⟩
  cases c
  · refine ⟨plainLead r ++ locStr r ++ " | ", ?_⟩
    rw [format_plain_decomp r]
    simp [plainLead, String.append_assoc]
  · refine ⟨colorLead r ++ locStr r ++ RESET ++ " | " ++ mainColor r.levelno, ?_⟩
    rw [format_color_decomp r]
    simp [colorLead, String.append_assoc]

/-- What one successful `setup_logger` call does to the state s: needed to
invert the claims' hypotheses. The returned logger has the two sinks when
the registry's entry was absent or had no handlers, and is the registered
logger (threshold reset to DEBUG) otherwise; the folder is created exactly
when missing; the registry holds the returned logger. -/
theorem setup_logger_ok_inv (st0 st1 : ProcState) (lg1 : Logger) (f : String)
    (h : setup_logger st0 f = Except.ok (st1, lg1)) :
    st1.dirs = (if f ∈ st0.dirs then st0.dirs else f :: st0.dirs) ∧
    st1.denied = st0.denied ∧
    st1.appLogger = some lg1 ∧
    lg1 = (match st0.appLogger with
      | some lg =>
        if lg.handlers.isEmpty then ⟨DEBUG, [streamSink, fileSink f]⟩
        else ⟨DEBUG, lg.handlers⟩
      | Option.none => ⟨DEBUG, [streamSink, fileSink f]⟩) := by
  unfold setup_logger at h
  by_cases hd : f ∈ st0.dirs
  · rw [if_pos hd] at h
    simp only at h
    cases hA : st0.appLogger with
    | none =>
      rw [hA] at h
      simp only [List.isEmpty_nil, if_pos] at h
      rw [Except.ok.injEq, Prod.mk.injEq] at h
      obtain ⟨h1, h2⟩ := h
      subst h1
      subst h2
      exact ⟨by simp [hd], rfl, rfl, by simp⟩
    | some lg =>
      rw [hA] at h
      by_cases hE : lg.handlers.isEmpty
      · rw [if_pos hE] at h
        rw [Except.ok.injEq, Prod.mk.injEq] at h
        obtain ⟨h1, h2⟩ := h
        subst h1
        subst h2
        exact ⟨by simp [hd], rfl, rfl, by simp [hE, List.isEmpty_iff.mp hE]⟩
      · rw [if_neg hE] at h
        rw [Except.ok.injEq, Prod.mk.injEq] at h
        obtain ⟨h1, h2⟩ := h
        subst h1
        subst h2
        exact ⟨by simp [hd], rfl, rfl, by simp [hE]⟩
  · rw [if_neg hd] at h
    unfold makedirs at h
    by_cases hden : f ∈ st0.denied
    · rw [if_pos hden] at h
      exact absurd h (by simp)
    · rw [if_neg hden] at h
      simp only at h
      cases hA : st0.appLogger with
      | none =>
        rw [hA] at h
        simp only [List.isEmpty_nil, if_pos] at h
        rw [Except.ok.injEq, Prod.mk.injEq] at h
        obtain ⟨h1, h2⟩ := h
        subst h1
        subst h2
        exact ⟨by simp [hd], rfl, rfl, by simp⟩
      | some lg =>
        rw [hA] at h
        by_cases hE : lg.handlers.isEmpty
        · rw [if_pos hE] at h
          rw [Except.ok.injEq, Prod.mk.injEq] at h
          obtain ⟨h1, h2⟩ := h
          subst h1
          subst h2
          exact ⟨by simp [hd], rfl, rfl, by simp [hE, List.isEmpty_iff.mp hE]⟩
        · rw [if_neg hE] at h
          rw [Except.ok.injEq, Prod.mk.injEq] at h
          obtain ⟨h1, h2⟩ := h
          subst h1
          subst h2
          exact ⟨by simp [hd], rfl, rfl, by simp [hE]⟩


/-- C5: a second `setup_logger` call in the same process returns the logger
that already has its sinks: the same two handlers, not four, so one
emission produces no duplicate lines. -/
theorem setup_idempotent_sinks (st0 st1 st2 : ProcState) (lg1 lg2 : Logger)
    (f f' : String) (h0 : st0.appLogger = Option.none)
    (h1 : setup_logger st0 f = Except.ok (st1, lg1))
    (h2 : setup_logger st1 f' = Except.ok (st2, lg2)) :
    lg2 = lg1 ∧
    lg1.handlers = [streamSink, fileSink f] ∧
    lg2.handlers.length = 2 ∧
    passingHandlers lg2 INFO = [streamSink, fileSink f] := by
  obtain ⟨d1, n1, a1, l1⟩ := setup_logger_ok_inv st0 st1 lg1 f h1
  simp only [h0] at l1
  subst l1
  obtain ⟨d2, n2, a2, l2⟩ := setup_logger_ok_inv st1 st2 lg2 f' h2
  rw [a1] at l2
  simp only [List.isEmpty_cons, Bool.false_eq_true, if_false] at l2
  subst l2
  exact ⟨rfl, rfl, rfl, rfl⟩

theorem setup_idempotent_sinks_witness :
    (⟨DEBUG, [streamSink, fileSink "logs"]⟩ : Logger) =
      ⟨DEBUG, [streamSink, fileSink "logs"]⟩ ∧
    (⟨DEBUG, [streamSink, fileSink "logs"]⟩ : Logger).handlers =
      [streamSink, fileSink "logs"] ∧
    (⟨DEBUG, [streamSink, fileSink "logs"]⟩ : Logger).handlers.length = 2 ∧
    passingHandlers ⟨DEBUG, [streamSink, fileSink "logs"]⟩ INFO =
      [streamSink, fileSink "logs"] :=
  setup_idempotent_sinks ⟨[], [], Option.none⟩
    ⟨["logs"], [], some ⟨DEBUG, [streamSink, fileSink "logs"]⟩⟩
    ⟨["logs2", "logs"], [], some ⟨DEBUG, [streamSink, fileSink "logs"]⟩⟩
    ⟨DEBUG, [streamSink, fileSink "logs"]⟩ ⟨DEBUG, [streamSink, fileSink "logs"]⟩
    "logs" "logs2" rfl rfl rfl

/-- C6 counterexample: a repeated `setup_logger` call is not a no-op on the
filesystem — called again with a directory that does not exist, it creates
that directory (lines 74–75 run before the `hasHandlers` early return). -/
theorem repeated_setup_noop_counterexample :
    setup_logger ⟨[], [], Option.none⟩ "logs" =
      Except.ok (⟨["logs"], [], some ⟨DEBUG, [streamSink, fileSink "logs"]⟩⟩,
        ⟨DEBUG, [streamSink, fileSink "logs"]⟩) ∧
    setup_logger ⟨["logs"], [], some ⟨DEBUG, [streamSink, fileSink "logs"]⟩⟩
        "logs2" =
      Except.ok
        (⟨["logs2", "logs"], [], some ⟨DEBUG, [streamSink, fileSink "logs"]⟩⟩,
        ⟨DEBUG, [streamSink, fileSink "logs"]⟩) ∧
    (["logs2", "logs"] : List String) ≠ ["logs"] :=
  ⟨rfl, rfl, by decide⟩

/-- C6 (amended): after the first successful setup call, a repeated call
registers no new handlers and returns the existing instance, and leaves the
registry entry and the denied set unchanged; it still ensures its directory
argument exists, creating it exactly when missing. -/
theorem repeated_setup_frame (st0 st1 st2 : ProcState) (lg1 lg2 : Logger)
    (f f' : String) (h0 : st0.appLogger = Option.none)
    (h1 : setup_logger st0 f = Except.ok (st1, lg1))
    (h2 : setup_logger st1 f' = Except.ok (st2, lg2)) :
    lg2 = lg1 ∧
    st2.appLogger = st1.appLogger ∧
    st2.denied = st1.denied ∧
    st2.dirs = (if f' ∈ st1.dirs then st1.dirs else f' :: st1.dirs) := by
  obtain ⟨d1, n1, a1, l1⟩ := setup_logger_ok_inv st0 st1 lg1 f h1
  simp only [h0] at l1
  subst l1
  obtain ⟨d2, n2, a2, l2⟩ := setup_logger_ok_inv st1 st2 lg2 f' h2
  rw [a1] at l2
  simp only [List.isEmpty_cons, Bool.false_eq_true, if_false] at l2
  subst l2
  exact ⟨rfl, by rw [a2, a1], n2, d2⟩

theorem repeated_setup_frame_witness :
    (⟨DEBUG, [streamSink, fileSink "logs"]⟩ : Logger) =
      ⟨DEBUG, [streamSink, fileSink "logs"]⟩ ∧
    (⟨["logs2", "logs"], [], some ⟨DEBUG, [streamSink, fileSink "logs"]⟩⟩
        : ProcState).appLogger =
      (⟨["logs"], [], some ⟨DEBUG, [streamSink, fileSink "logs"]⟩⟩
        : ProcState).appLogger ∧
    (⟨["logs2", "logs"], [], some ⟨DEBUG, [streamSink, fileSink "logs"]⟩⟩
        : ProcState).denied =
      (⟨["logs"], [], some ⟨DEBUG, [streamSink, fileSink "logs"]⟩⟩
        : ProcState).denied ∧
    (⟨["logs2", "logs"], [], some ⟨DEBUG, [streamSink, fileSink "logs"]⟩⟩
        : ProcState).dirs =
      (if "logs2" ∈ (⟨["logs"], [], some ⟨DEBUG, [streamSink, fileSink "logs"]⟩⟩
        : ProcState).dirs
       then (⟨["logs"], [], some ⟨DEBUG, [streamSink, fileSink "logs"]⟩⟩
        : ProcState).dirs
       else "logs2" :: (⟨["logs"], [], some ⟨DEBUG, [streamSink, fileSink "logs"]⟩⟩
        : ProcState).dirs) :=
  repeated_setup_frame ⟨[], [], Option.none⟩
    ⟨["logs"], [], some ⟨DEBUG, [streamSink, fileSink "logs"]⟩⟩
    ⟨["logs2", "logs"], [], some ⟨DEBUG, [streamSink, fileSink "logs"]⟩⟩
    ⟨DEBUG, [streamSink, fileSink "logs"]⟩ ⟨DEBUG, [streamSink, fileSink "logs"]⟩
    "logs" "logs2" rfl rfl rfl

/-- C7: the logger built by the first setup call has threshold DEBUG; its
console sink writes to standard output at level INFO with color-mode on;
its file sink appends utf-8 to `<folder>/log.txt` at level DEBUG with
color-mode off; a DEBUG emission passes only the file sink. -/
theorem setup_sink_configuration (st0 st1 : ProcState) (lg1 : Logger)
    (f : String) (h0 : st0.appLogger = Option.none)
    (h1 : setup_logger st0 f = Except.ok (st1, lg1)) :
    lg1.level = DEBUG ∧
    lg1.handlers = [Handler.stream StreamDest.stdout INFO true,
      Handler.file (f ++ "/" ++ "log.txt") "a" "utf-8" DEBUG false] ∧
    passingHandlers lg1 DEBUG =
      [Handler.file (f ++ "/" ++ "log.txt") "a" "utf-8" DEBUG false] := by
  obtain ⟨d1, n1, a1, l1⟩ := setup_logger_ok_inv st0 st1 lg1 f h1
  simp only [h0] at l1
  subst l1
  refine ⟨rfl, rfl, ?_⟩
  rfl

theorem setup_sink_configuration_witness :
    (⟨DEBUG, [streamSink, fileSink "logs"]⟩ : Logger).level = DEBUG ∧
    (⟨DEBUG, [streamSink, fileSink "logs"]⟩ : Logger).handlers =
      [Handler.stream StreamDest.stdout INFO true,
        Handler.file ("logs" ++ "/" ++ "log.txt") "a" "utf-8" DEBUG false] ∧
    passingHandlers ⟨DEBUG, [streamSink, fileSink "logs"]⟩ DEBUG =
      [Handler.file ("logs" ++ "/" ++ "log.txt") "a" "utf-8" DEBUG false] :=
  setup_sink_configuration ⟨[], [], Option.none⟩
    ⟨["logs"], [], some ⟨DEBUG, [streamSink, fileSink "logs"]⟩⟩
    ⟨DEBUG, [streamSink, fileSink "logs"]⟩ "logs" rfl rfl

/-- C8: when the log directory does not exist and cannot be created, the
failure propagates immediately out of `setup_logger` as an error — no
retry, no logger returned. -/
theorem setup_denied_propagates (st : ProcState) (f : String)
    (h1 : f ∉ st.dirs) (h2 : f ∈ st.denied) :
    setup_logger st f = Except.error ("PermissionError: " ++ f) := by
  unfold setup_logger makedirs
  rw [if_neg h1, if_pos h2]

theorem setup_denied_propagates_witness :
    setup_logger ⟨[], ["sys/logs"], Option.none⟩ "sys/logs" =
      Except.error ("PermissionError: " ++ "sys/logs") :=
  setup_denied_propagates ⟨[], ["sys/logs"], Option.none⟩ "sys/logs"
    (by decide) (by decide)

end MyLogger
